import Mathlib

/-!
Verification of the two examples in this repository against their
natural-language specification.

The first half embeds `state/src/main.rs`: the handler `index` increments a
`Mutex<usize>` counter, a thread-local `Cell<u32>` counter and an
`AtomicUsize` counter, then re-reads all three to render a plain-text body.
Machine integers are modelled as `Nat` with explicit reduction modulo the
type width (release-build wrapping semantics of unchecked `+ 1`).

The second half embeds `middleware/src/simple.rs`: the `SayHi` middleware
wraps an inner service, logs before delegating and after a successful
completion, and forwards `poll_ready` and the inner outcome verbatim.
-/

/-- Width of `usize` on the 64-bit targets this example targets: `counter1 :
Mutex<usize>` and `counter3 : AtomicUsize` hold values below this bound and
wrap modulo it. -/
def USIZE : Nat := 2 ^ 64

/-- Width of `u32`: the thread-local counter `counter2 : Cell<u32>` holds
values below this bound and wraps modulo it. -/
def U32 : Nat := 2 ^ 32

/-- State visible to one worker's handler invocation: the two process-wide
counters (`counter1` behind a mutex, `counter3` atomic), this worker's
thread-local `counter2`, and whether the mutex is poisoned (a thread
panicked while holding it), which makes `lock()` return an error. -/
structure ServerState where
  counter1 : Nat
  counter2 : Nat
  counter3 : Nat
  poisoned : Bool
  deriving DecidableEq

/-- Freshly started server as built in `main`: `Mutex::new(0usize)`,
`Cell::new(0u32)` in this worker's factory closure, `AtomicUsize::new(0)`,
mutex not poisoned. -/
def freshState : ServerState := ⟨0, 0, 0, false⟩

/-- Same counters but with the mutex poisoned, so `counter1.lock()` fails. -/
def poisonedState : ServerState := ⟨0, 0, 0, true⟩

/-- Shared-state accesses performed by one invocation of `index`, in program
order.  `lock`/`unlock` are mutex acquisitions/releases; the `...Inc` events
are the three increments; the `...Read` events are the re-reads feeding the
`format!` call that builds the body. -/
inductive Access where
  | lock
  | unlock
  | mutexInc
  | localInc
  | atomicInc
  | mutexRead
  | localRead
  | atomicRead
  deriving DecidableEq, BEq

/-- Access trace of one `index` invocation, in source order:
`*counter1.lock().unwrap() += 1;` (lock, increment, guard drop),
`counter2.set(counter2.get() + 1);`, `counter3.fetch_add(1, SeqCst);`,
then the body re-reads `*counter1.lock().unwrap()`, `counter2.get()`,
`counter3.load(SeqCst)` with the second guard dropped at the end of the
`format!` statement. -/
def indexTrace : List Access :=
  [Access.lock, Access.mutexInc, Access.unlock,
   Access.localInc,
   Access.atomicInc,
   Access.lock, Access.mutexRead, Access.localRead, Access.atomicRead,
   Access.unlock]

/-- Response as produced by `HttpResponse::Ok().body(body)`: status code and
body string. -/
structure HttpResponse where
  status : Nat
  body : String
  deriving DecidableEq

/-- Acquiring the mutex around `counter1`: `lock()` yields the protected
value, or an error (here `none`) when the mutex is poisoned.  `.unwrap()` on
the error is a panic, modelled by propagating `none`. -/
def mutexLock (s : ServerState) : Option Nat :=
  if s.poisoned then none else some s.counter1

/-- Body string built by the `format!` call in `index`. -/
def render (m t a : Nat) : String :=
  "global mutex counter: " ++ Nat.repr m ++ ", local counter: " ++ Nat.repr t
    ++ ", global atomic counter: " ++ Nat.repr a

/-- Handler `index` of `state/src/main.rs`, run sequentially: increments the
three counters in source order, then re-reads each to render the body.
Returns `none` when an `unwrap()` of a poisoned lock panics, otherwise the
updated state, the response, and the shared-state access trace. -/
def index (s : ServerState) : Option (ServerState × HttpResponse × List Access) :=
  match mutexLock s with
  | none => none
  | some c1 =>
    let s1 : ServerState := { s with counter1 := (c1 + 1) % USIZE }
    let s2 : ServerState := { s1 with counter2 := (s1.counter2 + 1) % U32 }
    let s3 : ServerState := { s2 with counter3 := (s2.counter3 + 1) % USIZE }
    match mutexLock s3 with
    | none => none
    | some m => some (s3, ⟨200, render m s3.counter2 s3.counter3⟩, indexTrace)

/-- N sequential invocations of `index` by one worker (the same thread-local
`counter2` throughout), threading the state; `none` if any invocation
panicked. -/
def runN : Nat → ServerState → Option ServerState
  | 0, s => some s
  | n + 1, s =>
    match index s with
    | none => none
    | some (s', _, _) => runN n s'

/-- Atomic events through which concurrent handler invocations touch the
process-wide counters: the locked read-modify-write of `counter1` (the lock
serialises it into one atomic event), a thread `tid`'s unsynchronised
increment of its own `counter2` (which never touches shared state), and the
`fetch_add` on `counter3`.  One complete request contributes exactly one
`mutexInc` and one `atomicInc`, as the trace `indexTrace` shows. -/
inductive Event where
  | mutexInc
  | localInc (tid : Nat)
  | atomicInc
  deriving DecidableEq

/-- Number of `mutexInc` events in a schedule. -/
def countMutexInc : List Event → Nat
  | [] => 0
  | Event.mutexInc :: es => countMutexInc es + 1
  | Event.localInc _ :: es => countMutexInc es
  | Event.atomicInc :: es => countMutexInc es

/-- Number of `atomicInc` events in a schedule. -/
def countAtomicInc : List Event → Nat
  | [] => 0
  | Event.mutexInc :: es => countAtomicInc es
  | Event.localInc _ :: es => countAtomicInc es
  | Event.atomicInc :: es => countAtomicInc es + 1

/-- The two process-wide counters shared by all workers. -/
structure GlobalState where
  counter1 : Nat
  counter3 : Nat
  deriving DecidableEq

/-- Shared counters as initialised in `main`. -/
def startGlobal : GlobalState := ⟨0, 0⟩

/-- Effect of one atomic event on the shared counters. -/
def applyEvent (g : GlobalState) : Event → GlobalState
  | Event.mutexInc => { g with counter1 := (g.counter1 + 1) % USIZE }
  | Event.localInc _ => g
  | Event.atomicInc => { g with counter3 := (g.counter3 + 1) % USIZE }

/-- Run an interleaving (schedule) of atomic events over the shared
counters. -/
def runEvents : GlobalState → List Event → GlobalState
  | g, [] => g
  | g, e :: es => runEvents (applyEvent g e) es

/-- Schedule of 2^64 complete requests: each contributes one `mutexInc` and
one `atomicInc` (this particular interleaving performs all the mutex
increments first). -/
def overflowSched : List Event :=
  List.replicate USIZE Event.mutexInc ++ List.replicate USIZE Event.atomicInc

/-- Environment update performed first in `main`:
`std::env::set_var("RUST_LOG", "actix_web=info")`.  The process environment
is a partial map from variable names to values. -/
def startupSetEnv (env : String → Option String) : String → Option String :=
  fun key => if key = "RUST_LOG" then some "actix_web=info" else env key

/-- An externally supplied environment in which the operator exported
`RUST_LOG=debug` before starting the process. -/
def externalEnv : String → Option String :=
  fun key => if key = "RUST_LOG" then some "debug" else none

/-- Result of polling a service for readiness (`std::task::Poll`). -/
inductive Poll (α : Type) where
  | ready (val : α)
  | pending
  deriving DecidableEq

/-- A `WebRequest<Err>`: the middleware only ever inspects `path()`; the rest
of the request is an opaque payload of type `ρ`. -/
structure WebRequest (ρ : Type) where
  path : String
  payload : ρ

/-- A `WebResponse<B>` with body type `B`. -/
structure WebResponse (B : Type) where
  body : B
  deriving DecidableEq

/-- The inner service `S` of `simple.rs`: a `poll_ready` check and a `call`
from requests to a result (the awaited future's output).  `Err` stands for
the framework's `Error` type, `Ctx` for the polling context. -/
structure Service (ρ B Err Ctx : Type) where
  poll_ready : Ctx → Poll (Except Err Unit)
  call : WebRequest ρ → Except Err (WebResponse B)

/-- The middleware factory `SayHi` (a unit struct). -/
structure SayHi where

/-- `SayHiMiddleware<S, Err>`: owns the wrapped service. -/
structure SayHiMiddleware (S : Type) where
  service : S

/-- The factory's `Transform::new_transform`: wraps the next service and
always succeeds (`ok(SayHiMiddleware ...)`, with `InitError = ()`). -/
def SayHi.new_transform {ρ B Err Ctx : Type} (_hi : SayHi)
    (service : Service ρ B Err Ctx) :
    Except Unit (SayHiMiddleware (Service ρ B Err Ctx)) :=
  Except.ok ⟨service⟩

/-- The middleware's `Service::poll_ready`: `self.service.poll_ready(cx)`. -/
def SayHiMiddleware.poll_ready {ρ B Err Ctx : Type}
    (m : SayHiMiddleware (Service ρ B Err Ctx)) (cx : Ctx) :
    Poll (Except Err Unit) :=
  m.service.poll_ready cx

/-- The middleware's `Service::call`: print the start line naming the
request path, delegate to the inner service with the request unchanged,
await it; on success (`let res = fut.await?`) print the response line and
return `Ok(res)`, on failure let `?` propagate the error unchanged.  The
first component collects the lines this middleware prints. -/
def SayHiMiddleware.call {ρ B Err Ctx : Type}
    (m : SayHiMiddleware (Service ρ B Err Ctx)) (req : WebRequest ρ) :
    List String × Except Err (WebResponse B) :=
  let pre := "Hi from start. You requested: " ++ req.path
  match m.service.call req with
  | Except.ok res => ([pre, "Hi from response"], Except.ok res)
  | Except.error e => ([pre], Except.error e)

/-- Concrete inner service that always succeeds with body `7`, used to
instantiate the middleware theorems. -/
def okService : Service Unit Nat Unit Unit :=
  ⟨fun _ => Poll.ready (Except.ok ()), fun _ => Except.ok ⟨7⟩⟩

/-- Concrete inner service that always fails with error `"boom"`, used to
instantiate the middleware theorems. -/
def errService : Service Unit Nat String Unit :=
  ⟨fun _ => Poll.pending, fun _ => Except.error "boom"⟩

/-! ### Helper lemmas -/

theorem USIZE_pos : 0 < USIZE := by norm_num [USIZE]

theorem U32_pos : 0 < U32 := by norm_num [U32]

theorem succ_mod_shift (a n M : Nat) :
    ((a + 1) % M + n) % M = (a + (n + 1)) % M := by
  rw [Nat.mod_add_mod]
  congr 1
  omega

theorem one_add_shift (a n M : Nat) :
    (a + 1 + n) % M = (a + (n + 1)) % M := by
  congr 1
  omega

/-- Unfolding `index` on an unpoisoned state: both lock acquisitions
succeed, each counter is incremented once, and the body renders the re-read
(post-increment) values. -/
theorem index_eq (s : ServerState) (h : s.poisoned = false) :
    index s =
      some ({ s with
                counter1 := (s.counter1 + 1) % USIZE,
                counter2 := (s.counter2 + 1) % U32,
                counter3 := (s.counter3 + 1) % USIZE },
        ⟨200, render ((s.counter1 + 1) % USIZE) ((s.counter2 + 1) % U32)
          ((s.counter3 + 1) % USIZE)⟩,
        indexTrace) := by
  obtain ⟨c1, c2, c3, p⟩ := s
  simp only [ServerState.poisoned] at h
  subst h
  simp [index, mutexLock]

/-- Closed form for N sequential requests on one worker: every counter
advances by N modulo its width. -/
theorem runN_formula (n : Nat) : ∀ s : ServerState,
    s.poisoned = false → s.counter1 < USIZE → s.counter2 < U32 →
    s.counter3 < USIZE →
    runN n s = some ⟨(s.counter1 + n) % USIZE, (s.counter2 + n) % U32,
      (s.counter3 + n) % USIZE, false⟩ := by
  induction n with
  | zero =>
    intro s hp h1 h2 h3
    obtain ⟨c1, c2, c3, p⟩ := s
    simp only [ServerState.poisoned] at hp
    subst hp
    simp only [ServerState.counter1] at h1
    simp only [ServerState.counter2] at h2
    simp only [ServerState.counter3] at h3
    simp [runN, Nat.mod_eq_of_lt h1, Nat.mod_eq_of_lt h2, Nat.mod_eq_of_lt h3]
  | succ n ih =>
    intro s hp h1 h2 h3
    have hstep := ih { s with
        counter1 := (s.counter1 + 1) % USIZE,
        counter2 := (s.counter2 + 1) % U32,
        counter3 := (s.counter3 + 1) % USIZE }
      hp (Nat.mod_lt _ USIZE_pos) (Nat.mod_lt _ U32_pos)
      (Nat.mod_lt _ USIZE_pos)
    rw [runN, index_eq s hp]
    exact hstep.trans (by simp [succ_mod_shift, one_add_shift])

/-- Closed form for N sequential requests from the fresh server state. -/
theorem runN_fresh (n : Nat) :
    runN n freshState = some ⟨n % USIZE, n % U32, n % USIZE, false⟩ := by
  have h := runN_formula n freshState rfl (by norm_num [freshState, USIZE])
    (by norm_num [freshState, U32]) (by norm_num [freshState, USIZE])
  simpa [freshState] using h

/-- Closed form for any interleaving of atomic events over the shared
counters: each counter advances by the number of its increment events,
modulo the word width. -/
theorem runEvents_formula (es : List Event) : ∀ g : GlobalState,
    g.counter1 < USIZE → g.counter3 < USIZE →
    runEvents g es = ⟨(g.counter1 + countMutexInc es) % USIZE,
      (g.counter3 + countAtomicInc es) % USIZE⟩ := by
  induction es with
  | nil =>
    intro g h1 h3
    obtain ⟨c1, c3⟩ := g
    simp only [GlobalState.counter1] at h1
    simp only [GlobalState.counter3] at h3
    simp [runEvents, countMutexInc, countAtomicInc, Nat.mod_eq_of_lt h1,
      Nat.mod_eq_of_lt h3]
  | cons e es ih =>
    intro g h1 h3
    obtain ⟨c1, c3⟩ := g
    cases e with
    | mutexInc =>
      have hstep := ih ⟨(c1 + 1) % USIZE, c3⟩ (Nat.mod_lt _ USIZE_pos) h3
      simp only [runEvents, applyEvent, countMutexInc, countAtomicInc]
      rw [hstep]
      simp [succ_mod_shift, one_add_shift]
    | localInc tid =>
      have hstep := ih ⟨c1, c3⟩ h1 h3
      simp only [runEvents, applyEvent, countMutexInc, countAtomicInc]
      rw [hstep]
    | atomicInc =>
      have hstep := ih ⟨c1, (c3 + 1) % USIZE⟩ h1 (Nat.mod_lt _ USIZE_pos)
      simp only [runEvents, applyEvent, countMutexInc, countAtomicInc]
      rw [hstep]
      simp [succ_mod_shift, one_add_shift]

theorem countMutexInc_append (l₁ l₂ : List Event) :
    countMutexInc (l₁ ++ l₂) = countMutexInc l₁ + countMutexInc l₂ := by
  induction l₁ with
  | nil => simp [countMutexInc]
  | cons e es ih =>
    cases e <;> simp [countMutexInc, ih]
    omega

theorem countAtomicInc_append (l₁ l₂ : List Event) :
    countAtomicInc (l₁ ++ l₂) = countAtomicInc l₁ + countAtomicInc l₂ := by
  induction l₁ with
  | nil => simp [countAtomicInc]
  | cons e es ih =>
    cases e <;> simp [countAtomicInc, ih]
    omega

theorem countMutexInc_replicate_mutex (n : Nat) :
    countMutexInc (List.replicate n Event.mutexInc) = n := by
  induction n with
  | zero => simp [countMutexInc]
  | succ n ih => simp [List.replicate_succ, countMutexInc, ih]

theorem countMutexInc_replicate_atomic (n : Nat) :
    countMutexInc (List.replicate n Event.atomicInc) = 0 := by
  induction n with
  | zero => simp [countMutexInc]
  | succ n ih => simp [List.replicate_succ, countMutexInc, ih]

theorem countAtomicInc_replicate_mutex (n : Nat) :
    countAtomicInc (List.replicate n Event.mutexInc) = 0 := by
  induction n with
  | zero => simp [countAtomicInc]
  | succ n ih => simp [List.replicate_succ, countAtomicInc, ih]

theorem countAtomicInc_replicate_atomic (n : Nat) :
    countAtomicInc (List.replicate n Event.atomicInc) = n := by
  induction n with
  | zero => simp [countAtomicInc]
  | succ n ih => simp [List.replicate_succ, countAtomicInc, ih]

/-! ### Claim theorems -/

/-- Claim C1: starting the server fresh (all three counters zero) and
issuing exactly one request yields a 200 response whose body is exactly
"global mutex counter: 1, local counter: 1, global atomic counter: 1". -/
theorem index_fresh_single_request :
    index freshState =
      some (⟨1, 1, 1, false⟩,
        ⟨200, "global mutex counter: 1, local counter: 1, global atomic counter: 1"⟩,
        indexTrace) := by
  decide

/-- Claim C2 (amended): after N sequential invocations of the handler on one
worker thread starting from the fresh state, the thread-local counter equals
N modulo 2^32 — hence equals N exactly whenever N < 2^32, but not beyond. -/
theorem thread_local_counter_after_n (N : Nat) :
    (runN N freshState).map ServerState.counter2 = some (N % U32) := by
  rw [runN_fresh]
  rfl

/-- Claim C2 counterexample: after exactly 2^32 sequential requests on one
worker the thread-local counter has wrapped to 0, not 2^32 as the claim
states for that N. -/
theorem thread_local_equals_n_cex :
    (runN (2 ^ 32) freshState).map ServerState.counter2 = some 0 ∧
    (0 : Nat) ≠ 2 ^ 32 := by
  constructor
  · rw [runN_fresh]
    simp [U32, Nat.mod_self]
  · norm_num

/-- Claim C3 (amended): for any interleaving of the atomic shared-state
events of N complete requests (each request contributes exactly one locked
increment of the mutex counter and one fetch-add of the atomic counter),
both shared counters end at N modulo 2^64 — hence at N exactly whenever
N < 2^64, but not beyond. -/
theorem shared_counters_after_schedule (N : Nat) (sched : List Event)
    (hm : countMutexInc sched = N) (ha : countAtomicInc sched = N) :
    runEvents startGlobal sched = ⟨N % USIZE, N % USIZE⟩ := by
  have h := runEvents_formula sched startGlobal
    (by norm_num [startGlobal, USIZE]) (by norm_num [startGlobal, USIZE])
  rw [h, hm, ha]
  simp [startGlobal]

/-- Witness for C3's theorem: one complete request interleaved with another
thread's local increment leaves both shared counters at 1. -/
theorem shared_counters_after_schedule_witness :
    runEvents startGlobal [Event.mutexInc, Event.localInc 0, Event.atomicInc]
      = ⟨1, 1⟩ := by
  have h := shared_counters_after_schedule 1
    [Event.mutexInc, Event.localInc 0, Event.atomicInc] rfl rfl
  simpa [USIZE] using h

/-- Claim C3 counterexample: a schedule of exactly 2^64 complete requests
(all mutex increments, then all atomic increments) leaves both shared
counters at 0, not at N = 2^64 as the claim states for that N. -/
theorem shared_counters_equal_n_cex :
    countMutexInc overflowSched = USIZE ∧
    countAtomicInc overflowSched = USIZE ∧
    runEvents startGlobal overflowSched = ⟨0, 0⟩ ∧
    (0 : Nat) ≠ USIZE := by
  have hm : countMutexInc overflowSched = USIZE := by
    simp [overflowSched, countMutexInc_append, countMutexInc_replicate_mutex,
      countMutexInc_replicate_atomic]
  have ha : countAtomicInc overflowSched = USIZE := by
    simp [overflowSched, countAtomicInc_append, countAtomicInc_replicate_mutex,
      countAtomicInc_replicate_atomic]
  refine ⟨hm, ha, ?_, by norm_num [USIZE]⟩
  have h := runEvents_formula overflowSched startGlobal
    (by norm_num [startGlobal, USIZE]) (by norm_num [startGlobal, USIZE])
  rw [h, hm, ha]
  simp [startGlobal, Nat.mod_self]

/-- Claim C7: if acquiring the mutex lock fails because the lock is
poisoned, the handler panics (no response is produced); when the lock is not
poisoned the panic branch is unreachable and the handler returns a
response. -/
theorem index_lock_poisoned_panics (s : ServerState) :
    (s.poisoned = true → index s = none) ∧
    (s.poisoned = false → (index s).isSome = true) := by
  constructor
  · intro h
    simp [index, mutexLock, h]
  · intro h
    simp [index_eq s h]

/-- Witness for C7's theorem: on the poisoned state the handler panics, on
the fresh state it returns a response. -/
theorem index_lock_poisoned_panics_witness :
    index poisonedState = none ∧ (index freshState).isSome = true :=
  ⟨(index_lock_poisoned_panics poisonedState).1 rfl,
   (index_lock_poisoned_panics freshState).2 rfl⟩

/-- Claim C4: when the inner handler returns a successful response, the
middleware's call returns that exact response unchanged, having forwarded
the very same request to the inner service; it only adds its two log
lines. -/
theorem sayhi_call_forwards_ok {ρ B Err Ctx : Type}
    (svc : Service ρ B Err Ctx) (req : WebRequest ρ) (r : WebResponse B)
    (h : svc.call req = Except.ok r) :
    (SayHiMiddleware.mk svc).call req =
      (["Hi from start. You requested: " ++ req.path, "Hi from response"],
        Except.ok r) := by
  simp [SayHiMiddleware.call, h]

/-- Witness for C4's theorem at a concrete service and request. -/
theorem sayhi_call_forwards_ok_witness :
    (SayHiMiddleware.mk okService).call ⟨"/", ()⟩ =
      (["Hi from start. You requested: " ++ "/", "Hi from response"],
        Except.ok ⟨7⟩) :=
  sayhi_call_forwards_ok okService ⟨"/", ()⟩ ⟨7⟩ rfl

/-- Claim C5: when the inner handler completes with an error, the
middleware's call returns that exact error unchanged — no retry, no
wrapping, no recovery (and the completion log line is never reached). -/
theorem sayhi_call_propagates_error {ρ B Err Ctx : Type}
    (svc : Service ρ B Err Ctx) (req : WebRequest ρ) (e : Err)
    (h : svc.call req = Except.error e) :
    (SayHiMiddleware.mk svc).call req =
      (["Hi from start. You requested: " ++ req.path],
        (Except.error e : Except Err (WebResponse B))) := by
  simp [SayHiMiddleware.call, h]

/-- Witness for C5's theorem at a concrete failing service and request. -/
theorem sayhi_call_propagates_error_witness :
    (SayHiMiddleware.mk errService).call ⟨"/", ()⟩ =
      (["Hi from start. You requested: " ++ "/"],
        (Except.error "boom" : Except String (WebResponse Nat))) :=
  sayhi_call_propagates_error errService ⟨"/", ()⟩ "boom" rfl

/-- Claim C6: for every polling context the middleware's readiness check
returns exactly the inner service's readiness check, forwarded verbatim. -/
theorem sayhi_poll_ready_forwards {ρ B Err Ctx : Type}
    (svc : Service ρ B Err Ctx) (cx : Ctx) :
    (SayHiMiddleware.mk svc).poll_ready cx = svc.poll_ready cx := rfl

/-- Claim C8 counterexample: with RUST_LOG externally set to "debug", the
program's startup replaces it with "actix_web=info" — the externally
supplied value is overwritten, contradicting the claim. -/
theorem rust_log_preserved_cex :
    externalEnv "RUST_LOG" = some "debug" ∧
    startupSetEnv externalEnv "RUST_LOG" = some "actix_web=info" ∧
    startupSetEnv externalEnv "RUST_LOG" ≠ externalEnv "RUST_LOG" := by
  refine ⟨rfl, rfl, ?_⟩
  decide

/-- Claim C8 (amended): at startup the program writes the logging-verbosity
variable RUST_LOG to the fixed value "actix_web=info", overwriting any
externally supplied value, and changes no other environment variable. -/
theorem startup_env_sets_rust_log (env : String → Option String) :
    startupSetEnv env "RUST_LOG" = some "actix_web=info" ∧
    ∀ key : String, key ≠ "RUST_LOG" → startupSetEnv env key = env key := by
  constructor
  · simp [startupSetEnv]
  · intro key hkey
    simp [startupSetEnv, hkey]

/-- Witness for C8's amended theorem: RUST_LOG is forced to
"actix_web=info" and an unrelated variable is left untouched. -/
theorem startup_env_sets_rust_log_witness :
    startupSetEnv externalEnv "RUST_LOG" = some "actix_web=info" ∧
    startupSetEnv externalEnv "PATH" = externalEnv "PATH" :=
  ⟨(startup_env_sets_rust_log externalEnv).1,
   (startup_env_sets_rust_log externalEnv).2 "PATH" (by decide)⟩

/-- Claim C9: the thread-local counter is 32-bit while the global counters
are word-sized; on the request after the 2^32-1st, a single worker's
thread-local counter wraps to 0 while the mutex and atomic counters advance
to 2^32 — the three counters do not share a value range. -/
theorem counter_width_divergence :
    runN (2 ^ 32 - 1) freshState =
      some ⟨2 ^ 32 - 1, 2 ^ 32 - 1, 2 ^ 32 - 1, false⟩ ∧
    runN (2 ^ 32) freshState = some ⟨2 ^ 32, 0, 2 ^ 32, false⟩ := by
  constructor <;> rw [runN_fresh] <;> norm_num [USIZE, U32]

/-- Claim C10: each handler invocation increments each counter exactly once,
ordered mutex counter, then thread-local counter, then atomic counter; the
body is rendered from re-reads performed after all three increments (a
second lock acquisition for the mutex — two acquisitions in total — and
fresh local/atomic loads), and sequentially those re-read values equal the
post-increment values. -/
theorem index_increment_order_and_reread (s : ServerState)
    (h : s.poisoned = false) :
    index s =
      some ({ s with
                counter1 := (s.counter1 + 1) % USIZE,
                counter2 := (s.counter2 + 1) % U32,
                counter3 := (s.counter3 + 1) % USIZE },
        ⟨200, render ((s.counter1 + 1) % USIZE) ((s.counter2 + 1) % U32)
          ((s.counter3 + 1) % USIZE)⟩,
        indexTrace) ∧
    indexTrace.count Access.mutexInc = 1 ∧
    indexTrace.count Access.localInc = 1 ∧
    indexTrace.count Access.atomicInc = 1 ∧
    indexTrace.count Access.lock = 2 ∧
    indexTrace.indexOf Access.mutexInc < indexTrace.indexOf Access.localInc ∧
    indexTrace.indexOf Access.localInc < indexTrace.indexOf Access.atomicInc ∧
    indexTrace.indexOf Access.atomicInc < indexTrace.indexOf Access.mutexRead ∧
    indexTrace.indexOf Access.atomicInc < indexTrace.indexOf Access.localRead ∧
    indexTrace.indexOf Access.atomicInc < indexTrace.indexOf Access.atomicRead
    := by
  refine ⟨index_eq s h, ?_⟩
  decide

/-- Witness for C10's theorem, instantiated at the fresh server state. -/
theorem index_increment_order_and_reread_witness :
    index freshState =
      some ({ freshState with
                counter1 := (freshState.counter1 + 1) % USIZE,
                counter2 := (freshState.counter2 + 1) % U32,
                counter3 := (freshState.counter3 + 1) % USIZE },
        ⟨200, render ((freshState.counter1 + 1) % USIZE)
          ((freshState.counter2 + 1) % U32)
          ((freshState.counter3 + 1) % USIZE)⟩,
        indexTrace) ∧
    indexTrace.count Access.mutexInc = 1 ∧
    indexTrace.count Access.localInc = 1 ∧
    indexTrace.count Access.atomicInc = 1 ∧
    indexTrace.count Access.lock = 2 ∧
    indexTrace.indexOf Access.mutexInc < indexTrace.indexOf Access.localInc ∧
    indexTrace.indexOf Access.localInc < indexTrace.indexOf Access.atomicInc ∧
    indexTrace.indexOf Access.atomicInc < indexTrace.indexOf Access.mutexRead ∧
    indexTrace.indexOf Access.atomicInc < indexTrace.indexOf Access.localRead ∧
    indexTrace.indexOf Access.atomicInc < indexTrace.indexOf Access.atomicRead
    :=
  index_increment_order_and_reread freshState rfl
